import Mathlib

/-!
Verification of the `nice_view_disp` status widget
(`src/boards/shields/nice_view_disp/widgets/status.c`).

The file shallowly embeds the decision logic of the widget:
the key-label decoder `format_key_label` (rich usage-page form and the
positional fallback form), the per-widget status snapshot and the four
reducer callbacks that broadcast state to every registered widget, the
global keypress debounce, and the pure text/selection computations of
the drawing functions. Theorems at the end settle the specification
claims against these definitions.
-/

/-- The shift test of `format_key_label`:
`(implicit_modifiers | explicit_modifiers) & (BIT(1) | BIT(5)) != 0`. -/
def hid_shifted (implicit_modifiers explicit_modifiers : Nat) : Bool :=
  ((implicit_modifiers ||| explicit_modifiers) &&& ((1 <<< 1) ||| (1 <<< 5))) != 0

/-- The `switch (state->keycode)` table of `format_key_label` for usage page
0x07, in source order. Each entry is `(keycode, unshifted label, shifted
label)`; keys whose `case` prints a single fixed label carry that label in
both components. -/
def keyboard_switch_table : List (Nat × String × String) := [
  (0x1e, "1", "!"),
  (0x1f, "2", "@"),
  (0x20, "3", "#"),
  (0x21, "4", "$"),
  (0x22, "5", "%"),
  (0x23, "6", "^"),
  (0x24, "7", "&"),
  (0x25, "8", "*"),
  (0x26, "9", "("),
  (0x27, "0", ")"),
  (0x28, "ENTER", "ENTER"),
  (0x29, "ESC", "ESC"),
  (0x2a, "BSPC", "BSPC"),
  (0x2b, "TAB", "TAB"),
  (0x2c, "SPACE", "SPACE"),
  (0x2d, "-", "_"),
  (0x2e, "=", "+"),
  (0x2f, "[", "\x7b"),
  (0x30, "]", "\x7d"),
  (0x31, "\\", "|"),
  (0x33, ";", ":"),
  (0x34, "\x27", "\""),
  (0x35, "\x60", "~"),
  (0x36, ",", "<"),
  (0x37, ".", ">"),
  (0x38, "/", "?"),
  (0x3a, "F1", "F1"),
  (0x3b, "F2", "F2"),
  (0x3c, "F3", "F3"),
  (0x3d, "F4", "F4"),
  (0x3e, "F5", "F5"),
  (0x3f, "F6", "F6"),
  (0x40, "F7", "F7"),
  (0x41, "F8", "F8"),
  (0x42, "F9", "F9"),
  (0x43, "F10", "F10"),
  (0x44, "F11", "F11"),
  (0x45, "F12", "F12"),
  (0x4a, "HOME", "HOME"),
  (0x4b, "PGUP", "PGUP"),
  (0x4c, "DEL", "DEL"),
  (0x4d, "END", "END"),
  (0x4e, "PGDN", "PGDN"),
  (0x4f, "RIGHT", "RIGHT"),
  (0x50, "LEFT", "LEFT"),
  (0x51, "DOWN", "DOWN"),
  (0x52, "UP", "UP"),
  (0xe0, "LCTRL", "LCTRL"),
  (0xe1, "LSHFT", "LSHFT"),
  (0xe2, "LALT", "LALT"),
  (0xe3, "LGUI", "LGUI"),
  (0xe4, "RCTRL", "RCTRL"),
  (0xe5, "RSHFT", "RSHFT"),
  (0xe6, "RALT", "RALT"),
  (0xe7, "RGUI", "RGUI")]

/-- The `switch (state->keycode)` table of `format_key_label` for usage page
0x0c (consumer control), in source order. Its `default:` case is handled in
`format_key_label` itself. -/
def consumer_switch_table : List (Nat × String) := [
  (0xe2, "MUTE"),
  (0xe9, "VOL+"),
  (0xea, "VOL-"),
  (0xb5, "NEXT"),
  (0xb6, "PREV"),
  (0xcd, "PLAY")]

/-- Rich-form `format_key_label` (the `HAVE_KEYCODE_EVENTS` build): returns
`some label` where the C function writes `label` into `out` and returns
`true`, and `none` where it returns `false`. Letters come from
`'A' + (keycode - 0x04)`; other page-0x07 keycodes go through the switch
table with the `shifted` selection; page 0x0c falls back to `"MEDIA"`. -/
def format_key_label (usage_page keycode implicit_modifiers explicit_modifiers :
    Nat) : Option String :=
  let shifted := hid_shifted implicit_modifiers explicit_modifiers
  if usage_page = 0x07 then
    if 0x04 ≤ keycode ∧ keycode ≤ 0x1d then
      some (String.singleton (Char.ofNat ('A'.toNat + (keycode - 0x04))))
    else
      (keyboard_switch_table.lookup keycode).map
        (fun labels => if shifted then labels.2 else labels.1)
  else if usage_page = 0x0c then
    some ((consumer_switch_table.lookup keycode).getD ("MEDIA"))
  else
    none

/-- `default_key_labels[]` of the positional (`!HAVE_KEYCODE_EVENTS`) build,
in source order. -/
def default_key_labels : List String := [
  "TAB", "Q", "W", "E", "R", "T", "MUTE", "PP", "Y", "U", "I", "O", "P", "BSPC",
  "ESC", "A", "S", "D", "F", "G", "LALT", "RALT", "H", "J", "K", "L", ";", "\x27",
  "LSHFT", "Z", "X", "C", "V", "B", "N", "M", ",", ".", "/", "ENTER",
  "ALT", "LOWER", "LCTRL", "SPACE", "RAISE", "GUI"]

/-- `label_for_position`: bounds-checked lookup into `default_key_labels`;
`none` models the `NULL` return for an out-of-range position. -/
def label_for_position (position : Nat) : Option String :=
  default_key_labels.get? position

/-- Minimal model of the external `struct zmk_endpoint_instance`; the widget
only copies and compares it, and `draw_top` reads its transport. -/
structure zmk_endpoint_instance where
  transport : Nat
deriving DecidableEq

/-- The per-widget `struct status_state` snapshot (declared in `status.h`),
with exactly the fields `status.c` reads and writes. -/
structure status_state where
  battery : Nat
  charging : Bool
  selected_endpoint : zmk_endpoint_instance
  active_profile_index : Int
  active_profile_connected : Bool
  active_profile_bonded : Bool
  layer_index : Nat
  layer_label : Option String
  last_key : String
  show_last_key : Bool
deriving DecidableEq

/-- `struct battery_status_state` as used by `set_battery_status` (the
`CONFIG_USB_DEVICE_STACK` build, which also carries `usb_present`). -/
structure battery_status_state where
  level : Nat
  usb_present : Bool
deriving DecidableEq

/-- `struct output_status_state`. -/
structure output_status_state where
  selected_endpoint : zmk_endpoint_instance
  active_profile_index : Int
  active_profile_connected : Bool
  active_profile_bonded : Bool
deriving DecidableEq

/-- `struct layer_status_state`; `label` is `none` for a `NULL` pointer. -/
structure layer_status_state where
  index : Nat
  label : Option String
deriving DecidableEq

/-- `struct keypress_status_state`, rich (`HAVE_KEYCODE_EVENTS`) form. -/
structure keypress_status_state where
  usage_page : Nat
  keycode : Nat
  implicit_modifiers : Nat
  explicit_modifiers : Nat
  pressed : Bool
deriving DecidableEq

/-- The two static debounce globals of `status.c`:
`last_keypress_render_ms` and `has_last_keypress_render`. -/
structure keypress_render_globals where
  last_keypress_render_ms : Nat
  has_last_keypress_render : Bool
deriving DecidableEq

/-- `KEYPRESS_RENDER_INTERVAL_MS`. -/
def KEYPRESS_RENDER_INTERVAL_MS : Nat := 100

/-- Unsigned 32-bit subtraction `a - b` (for `a, b < 2^32`), as computed on
the `uint32_t` uptime values. -/
def uint32_sub (a b : Nat) : Nat := (a + 2 ^ 32 - b) % 2 ^ 32

/-- `set_battery_status`: the snapshot mutation (the redraw of the top zone
carries no state). -/
def set_battery_status (state : battery_status_state) (w : status_state) :
    status_state :=
  { w with charging := state.usb_present, battery := state.level }

/-- `battery_status_update_cb`: broadcast `set_battery_status` over the
registered widgets in list (registration) order. -/
def battery_status_update_cb (state : battery_status_state)
    (widgets : List status_state) : List status_state :=
  widgets.map (set_battery_status state)

/-- `set_output_status`: the snapshot mutation. -/
def set_output_status (state : output_status_state) (w : status_state) :
    status_state :=
  { w with
    selected_endpoint := state.selected_endpoint,
    active_profile_index := state.active_profile_index,
    active_profile_connected := state.active_profile_connected,
    active_profile_bonded := state.active_profile_bonded }

/-- `output_status_update_cb`: broadcast over the registered widgets. -/
def output_status_update_cb (state : output_status_state)
    (widgets : List status_state) : List status_state :=
  widgets.map (set_output_status state)

/-- `set_layer_status`: the snapshot mutation. -/
def set_layer_status (state : layer_status_state) (w : status_state) :
    status_state :=
  { w with layer_index := state.index, layer_label := state.label }

/-- `layer_status_update_cb`: broadcast over the registered widgets. -/
def layer_status_update_cb (state : layer_status_state)
    (widgets : List status_state) : List status_state :=
  widgets.map (set_layer_status state)

/-- `set_keypress_status`, rich form: `format_key_label` into `last_key`,
substituting the `"KEY"` placeholder when it returns `false`, then set
`show_last_key`. -/
def set_keypress_status (state : keypress_status_state) (w : status_state) :
    status_state :=
  { w with
    last_key := (format_key_label state.usage_page state.keycode
      state.implicit_modifiers state.explicit_modifiers).getD ("KEY"),
    show_last_key := true }

/-- `set_keypress_status`, positional form: `label_for_position` into
`last_key`, substituting `"K%u"` when out of range. -/
def set_keypress_status_positional (position : Nat) (w : status_state) :
    status_state :=
  { w with
    last_key := (label_for_position position).getD ("K" ++ toString position),
    show_last_key := true }

/-- `keypress_status_update_cb`. In: the debounce globals, the widget list,
the event, and `now = k_uptime_get_32()` (a `uint32_t` value, so `< 2^32`).
Out: the new globals, the new widget list, and whether a redraw happened.
Release events return immediately; a press within
`KEYPRESS_RENDER_INTERVAL_MS` of the last press-triggered render (when one
exists) is dropped; otherwise the timestamp is recorded and the update is
broadcast. -/
def keypress_status_update_cb (g : keypress_render_globals)
    (widgets : List status_state) (state : keypress_status_state)
    (now : Nat) : keypress_render_globals × List status_state × Bool :=
  if state.pressed = false then
    (g, widgets, false)
  else if g.has_last_keypress_render = true ∧
      uint32_sub now g.last_keypress_render_ms < KEYPRESS_RENDER_INTERVAL_MS then
    (g, widgets, false)
  else
    ({ last_keypress_render_ms := now, has_last_keypress_render := true },
     widgets.map (set_keypress_status state), true)

/-- The bottom-zone text computed by `draw_bottom`: `"LAYER %i"` when
`layer_label` is `NULL` or empty, the label verbatim otherwise. -/
def draw_bottom_text : Option String → Nat → String
  | none, layer_index => "LAYER " ++ toString layer_index
  | some label, layer_index =>
    if label.length = 0 then "LAYER " ++ toString layer_index else label

/-- The per-slot `selected` flag computed in `draw_middle`'s loop:
`i == state->active_profile_index`. -/
def draw_middle_selected (active_profile_index : Int) (i : Nat) : Bool :=
  (i : Int) == active_profile_index

/-- The five slot-selection flags of `draw_middle`, in loop order. -/
def draw_middle_slots (active_profile_index : Int) : List Bool :=
  (List.range 5).map (draw_middle_selected active_profile_index)

/-- A `List.lookup` on an association list none of whose keys is `a`
returns `none`. -/
theorem lookup_eq_none_of_not_mem_keys {β : Type} (l : List (Nat × β))
    (a : Nat) (h : ∀ p ∈ l, p.1 ≠ a) : l.lookup a = none := by
  induction l with
  | nil => rfl
  | cons p t ih =>
    obtain ⟨k, v⟩ := p
    have hk : k ≠ a := h (k, v) (List.mem_cons_self _ _)
    have ht : ∀ q ∈ t, q.1 ≠ a := fun q hq => h q (List.mem_cons_of_mem _ hq)
    simp [List.lookup_cons, beq_false_of_ne (Ne.symm hk), ih ht]

/-- `uint32_t` subtraction agrees with truncated `Nat` subtraction when the
minuend is at least the subtrahend and fits in 32 bits. -/
theorem uint32_sub_eq_sub (a b : Nat) (hb : b ≤ a) (ha : a < 2 ^ 32) :
    uint32_sub a b = a - b := by
  unfold uint32_sub
  have hco : a + 2 ^ 32 - b = (a - b) + 2 ^ 32 := by omega
  rw [hco, Nat.add_mod_right, Nat.mod_eq_of_lt (by omega)]

/-- C2: for usage page 0x07, usage id 0x1E, decoding with
`implicit_modifiers = 0` and `explicit_modifiers = BIT(1)` yields `"!"`
(matched), with no shift bits set yields `"1"`, and in general the label is
selected by the `shifted` flag computed as
`(implicit_modifiers | explicit_modifiers) & (BIT(1) | BIT(5)) != 0`. -/
theorem shift_sensitivity :
    format_key_label 0x07 0x1e 0 (1 <<< 1) = some ("!") ∧
    format_key_label 0x07 0x1e 0 0 = some ("1") ∧
    ∀ implicit_modifiers explicit_modifiers,
      format_key_label 0x07 0x1e implicit_modifiers explicit_modifiers =
        some (if hid_shifted implicit_modifiers explicit_modifiers
              then "!" else "1") := by
  refine ⟨by decide, by decide, fun imp exp => ?_⟩
  rfl

/-- C9: for usage page 0x07, every usage id in 0x04..0x1D decodes (matched)
to the single letter `'A' + (id - 0x04)`, independently of the modifier
bits; in particular 0x04 yields `"A"` and 0x1D yields `"Z"`. -/
theorem letter_range :
    (∀ keycode implicit_modifiers explicit_modifiers,
      0x04 ≤ keycode → keycode ≤ 0x1d →
      format_key_label 0x07 keycode implicit_modifiers explicit_modifiers =
        some (String.singleton (Char.ofNat ('A'.toNat + (keycode - 0x04))))) ∧
    format_key_label 0x07 0x04 0 0 = some ("A") ∧
    format_key_label 0x07 0x1d 0 0 = some ("Z") := by
  refine ⟨fun k imp exp h1 h2 => ?_, by decide, by decide⟩
  simp [format_key_label, h1, h2]

/-- C9 witness: the general letter formula at the concrete id 0x0F. -/
theorem letter_range_witness : format_key_label 0x07 0x0f 0 0 = some ("L") :=
  (letter_range.1 0x0f 0 0 (by decide) (by decide)).trans (by decide)

/-- C3: on usage page 0x0C every usage id outside the six-entry consumer
table decodes to `"MEDIA"` with `matched = true`, while on usage page 0x07 a
usage id with no switch-table entry and outside the letter range returns
`matched = false` (`none`). -/
theorem consumer_keyboard_asymmetry
    (id jd implicit_modifiers explicit_modifiers : Nat)
    (hc : ∀ p ∈ consumer_switch_table, p.1 ≠ id)
    (hk : ∀ p ∈ keyboard_switch_table, p.1 ≠ jd)
    (hr : ¬(0x04 ≤ jd ∧ jd ≤ 0x1d)) :
    format_key_label 0x0c id implicit_modifiers explicit_modifiers =
      some ("MEDIA") ∧
    format_key_label 0x07 jd implicit_modifiers explicit_modifiers = none := by
  constructor
  · simp [format_key_label, lookup_eq_none_of_not_mem_keys _ _ hc]
  · simp [format_key_label, hr, lookup_eq_none_of_not_mem_keys _ _ hk]

/-- C3 witness: the asymmetry at concrete ids 0x99 (consumer page) and 0x39
(keyboard page). -/
theorem consumer_keyboard_asymmetry_witness :
    format_key_label 0x0c 0x99 0 0 = some ("MEDIA") ∧
    format_key_label 0x07 0x39 0 0 = none :=
  consumer_keyboard_asymmetry 0x99 0x39 0 0 (by decide) (by decide) (by decide)

/-- C4: in the positional build, position 0 decodes to `"TAB"`, and every
position at or beyond the fallback table's length decodes to `none`
(bounds-checked), after which the caller stores `"K" ++ position` in the
widget's `last_key`. -/
theorem positional_fallback :
    label_for_position 0 = some ("TAB") ∧
    ∀ position w, default_key_labels.length ≤ position →
      label_for_position position = none ∧
      (set_keypress_status_positional position w).last_key =
        "K" ++ toString position := by
  refine ⟨by decide, fun pos w h => ?_⟩
  have hn : label_for_position pos = none := by
    simpa [label_for_position, List.get?_eq_none] using h
  exact ⟨hn, by simp [set_keypress_status_positional, hn]⟩

/-- C4 witness: position 46 (the table length) is unmatched and yields the
placeholder `"K46"`. -/
theorem positional_fallback_witness :
    label_for_position 46 = none ∧
    (set_keypress_status_positional 46
      { battery := 0, charging := false, selected_endpoint := ⟨0⟩,
        active_profile_index := 0, active_profile_connected := false,
        active_profile_bonded := false, layer_index := 0, layer_label := none,
        last_key := "", show_last_key := false }).last_key = "K46" :=
  positional_fallback.2 46
    { battery := 0, charging := false, selected_endpoint := ⟨0⟩,
      active_profile_index := 0, active_profile_connected := false,
      active_profile_bonded := false, layer_index := 0, layer_label := none,
      last_key := "", show_last_key := false } (by decide)

/-- C6: with a `NULL` or empty `layer_label` and `layer_index = 3` the
bottom-zone text is `"LAYER 3"` (generally `"LAYER <index>"`); a non-empty
label is rendered verbatim and the index does not affect the text. -/
theorem layer_label_fallback :
    draw_bottom_text none 3 = "LAYER 3" ∧
    draw_bottom_text (some "") 3 = "LAYER 3" ∧
    (∀ layer_index, draw_bottom_text none layer_index =
        "LAYER " ++ toString layer_index ∧
      draw_bottom_text (some "") layer_index =
        "LAYER " ++ toString layer_index) ∧
    ∀ label layer_index jndex, label.length ≠ 0 →
      draw_bottom_text (some label) layer_index = label ∧
      draw_bottom_text (some label) layer_index =
        draw_bottom_text (some label) jndex := by
  refine ⟨by decide, by decide, fun n => ⟨rfl, rfl⟩, fun l n m h => ?_⟩
  constructor
  · simp [draw_bottom_text, h]
  · simp [draw_bottom_text, h]

/-- C6 witness: the non-empty label `"UPPER"` renders verbatim at indices 3
and 9. -/
theorem layer_label_fallback_witness :
    draw_bottom_text (some "UPPER") 3 = "UPPER" ∧
    draw_bottom_text (some "UPPER") 3 = draw_bottom_text (some "UPPER") 9 :=
  layer_label_fallback.2.2.2 "UPPER" 3 9 (by decide)

/-- C7: for every `active_profile_index` in 0..4 the `draw_middle` loop
marks exactly one of the five slots selected, namely the slot whose loop
index equals `active_profile_index`. -/
theorem profile_selection_exclusivity (a : Int) (h0 : 0 ≤ a) (h4 : a ≤ 4) :
    (draw_middle_slots a).count true = 1 ∧
    ∀ i, i < 5 → (draw_middle_selected a i = true ↔ (i : Int) = a) := by
  constructor
  · interval_cases a <;> decide
  · intro i _
    simp [draw_middle_selected]

/-- C7 witness: with `active_profile_index = 2` exactly one slot is
selected. -/
theorem profile_selection_exclusivity_witness :
    (draw_middle_slots 2).count true = 1 :=
  (profile_selection_exclusivity 2 (by decide) (by decide)).1

/-- C5: a release event (`pressed = false`) leaves the debounce globals and
every widget snapshot unchanged and triggers no redraw. -/
theorem release_ignored (g : keypress_render_globals)
    (widgets : List status_state) (state : keypress_status_state) (now : Nat)
    (h : state.pressed = false) :
    keypress_status_update_cb g widgets state now = (g, widgets, false) := by
  simp [keypress_status_update_cb, h]

/-- C5 witness: a concrete release event is a no-op. -/
theorem release_ignored_witness :
    keypress_status_update_cb
      { last_keypress_render_ms := 500, has_last_keypress_render := true }
      [⟨80, false, ⟨0⟩, 1, true, true, 0, none, "A", true⟩]
      ⟨0x07, 0x05, 0, 0, false⟩ 700 =
    ({ last_keypress_render_ms := 500, has_last_keypress_render := true },
     [⟨80, false, ⟨0⟩, 1, true, true, 0, none, "A", true⟩], false) :=
  release_ignored
    { last_keypress_render_ms := 500, has_last_keypress_render := true }
    [⟨80, false, ⟨0⟩, 1, true, true, 0, none, "A", true⟩]
    ⟨0x07, 0x05, 0, 0, false⟩ 700 (by decide)

/-- C10: a press is never debounced while `has_last_keypress_render` is
still `false`: whatever `now` is (even below 100 ms), the callback records
the timestamp, broadcasts the update (every widget gets the decoded
`last_key` and `show_last_key = true`) and redraws. -/
theorem first_press_not_debounced (g : keypress_render_globals)
    (widgets : List status_state) (state : keypress_status_state) (now : Nat)
    (hh : g.has_last_keypress_render = false) (hp : state.pressed = true) :
    keypress_status_update_cb g widgets state now =
      ({ last_keypress_render_ms := now, has_last_keypress_render := true },
       widgets.map (set_keypress_status state), true) ∧
    ∀ w ∈ (keypress_status_update_cb g widgets state now).2.1,
      w.last_key = (format_key_label state.usage_page state.keycode
        state.implicit_modifiers state.explicit_modifiers).getD ("KEY") ∧
      w.show_last_key = true := by
  have hcb : keypress_status_update_cb g widgets state now =
      ({ last_keypress_render_ms := now, has_last_keypress_render := true },
       widgets.map (set_keypress_status state), true) := by
    simp [keypress_status_update_cb, hp, hh]
  refine ⟨hcb, ?_⟩
  rw [hcb]
  intro w hw
  simp only [List.mem_map] at hw
  obtain ⟨v, _, rfl⟩ := hw
  exact ⟨rfl, rfl⟩

/-- C10 witness: the very first press, arriving at uptime 5 ms (below the
100 ms interval), still updates the widget and redraws. -/
theorem first_press_not_debounced_witness :
    keypress_status_update_cb
      { last_keypress_render_ms := 0, has_last_keypress_render := false }
      [⟨0, false, ⟨0⟩, 0, false, false, 0, none, "", false⟩]
      ⟨0x07, 0x04, 0, 0, true⟩ 5 =
    ({ last_keypress_render_ms := 5, has_last_keypress_render := true },
     [⟨0, false, ⟨0⟩, 0, false, false, 0, none, "A", true⟩], true) :=
  ((first_press_not_debounced
      { last_keypress_render_ms := 0, has_last_keypress_render := false }
      [⟨0, false, ⟨0⟩, 0, false, false, 0, none, "", false⟩]
      ⟨0x07, 0x04, 0, 0, true⟩ 5 (by decide) (by decide)).1).trans (by decide)

/-- C1: after a press at `t1` has triggered a redraw, a second press at
`t2` less than 100 ms later is dropped — globals, every widget snapshot
(hence every `last_key` and `show_last_key`) and the redraw flag are all
unchanged — while a second press 100 ms or more later updates every widget,
records the new timestamp and redraws. -/
theorem keypress_debounce (g0 g1 : keypress_render_globals)
    (ws0 ws1 : List status_state) (ev1 ev2 : keypress_status_state)
    (t1 t2 : Nat) (hp2 : ev2.pressed = true)
    (h1 : keypress_status_update_cb g0 ws0 ev1 t1 = (g1, ws1, true))
    (hle : t1 ≤ t2) (hlt : t2 < 2 ^ 32) :
    (t2 - t1 < 100 →
      keypress_status_update_cb g1 ws1 ev2 t2 = (g1, ws1, false)) ∧
    (100 ≤ t2 - t1 →
      keypress_status_update_cb g1 ws1 ev2 t2 =
        ({ last_keypress_render_ms := t2, has_last_keypress_render := true },
         ws1.map (set_keypress_status ev2), true)) := by
  have hacc :
      g1 = keypress_render_globals.mk t1 true := by
    unfold keypress_status_update_cb at h1
    split_ifs at h1
    · simp [Prod.ext_iff] at h1
    · simp [Prod.ext_iff] at h1
    · rw [Prod.ext_iff] at h1
      exact h1.1.symm
  subst hacc
  have hsub : uint32_sub t2 t1 = t2 - t1 := uint32_sub_eq_sub t2 t1 hle hlt
  constructor
  · intro hd
    simp [keypress_status_update_cb, hp2, hsub, hd,
      KEYPRESS_RENDER_INTERVAL_MS]
  · intro hd
    simp [keypress_status_update_cb, hp2, hsub,
      KEYPRESS_RENDER_INTERVAL_MS, Nat.not_lt.mpr hd]

/-- C1 witness: a press of usage id 0x05 arriving 50 ms after the press
that rendered `"A"` is dropped with nothing changed. -/
theorem keypress_debounce_witness :
    keypress_status_update_cb
      { last_keypress_render_ms := 1000, has_last_keypress_render := true }
      [⟨0, false, ⟨0⟩, 0, false, false, 0, none, "A", true⟩]
      ⟨0x07, 0x05, 0, 0, true⟩ 1050 =
    ({ last_keypress_render_ms := 1000, has_last_keypress_render := true },
     [⟨0, false, ⟨0⟩, 0, false, false, 0, none, "A", true⟩], false) :=
  (keypress_debounce
    { last_keypress_render_ms := 0, has_last_keypress_render := false }
    { last_keypress_render_ms := 1000, has_last_keypress_render := true }
    [⟨0, false, ⟨0⟩, 0, false, false, 0, none, "", false⟩]
    [⟨0, false, ⟨0⟩, 0, false, false, 0, none, "A", true⟩]
    ⟨0x07, 0x04, 0, 0, true⟩ ⟨0x07, 0x05, 0, 0, true⟩ 1000 1050
    (by decide) (by decide) (by decide) (by decide)).1 (by decide)

/-- C8: one reducer firing broadcasts one state value to every registered
widget, so after it fires every widget in the result (hence all of them
identically) carries that value in the fields the reducer owns: level and
usb-present for battery; endpoint, profile index, connected and bonded for
output; index and label for layer; and, whenever the keypress callback
redraws, the decoded label and `show_last_key` for keypress. -/
theorem broadcast_consistency (bs : battery_status_state)
    (os : output_status_state) (ls : layer_status_state)
    (ks : keypress_status_state) (g : keypress_render_globals)
    (widgets : List status_state) (now : Nat) :
    (∀ w ∈ battery_status_update_cb bs widgets,
      w.battery = bs.level ∧ w.charging = bs.usb_present) ∧
    (∀ w ∈ output_status_update_cb os widgets,
      w.selected_endpoint = os.selected_endpoint ∧
      w.active_profile_index = os.active_profile_index ∧
      w.active_profile_connected = os.active_profile_connected ∧
      w.active_profile_bonded = os.active_profile_bonded) ∧
    (∀ w ∈ layer_status_update_cb ls widgets,
      w.layer_index = ls.index ∧ w.layer_label = ls.label) ∧
    ((keypress_status_update_cb g widgets ks now).2.2 = true →
      ∀ w ∈ (keypress_status_update_cb g widgets ks now).2.1,
        w.last_key = (format_key_label ks.usage_page ks.keycode
          ks.implicit_modifiers ks.explicit_modifiers).getD ("KEY") ∧
        w.show_last_key = true) := by
  refine ⟨?_, ?_, ?_, ?_⟩
  · intro w hw
    simp only [battery_status_update_cb, List.mem_map] at hw
    obtain ⟨v, _, rfl⟩ := hw
    exact ⟨rfl, rfl⟩
  · intro w hw
    simp only [output_status_update_cb, List.mem_map] at hw
    obtain ⟨v, _, rfl⟩ := hw
    exact ⟨rfl, rfl, rfl, rfl⟩
  · intro w hw
    simp only [layer_status_update_cb, List.mem_map] at hw
    obtain ⟨v, _, rfl⟩ := hw
    exact ⟨rfl, rfl⟩
  · intro hr w hw
    unfold keypress_status_update_cb at hr hw
    split_ifs at hr hw
    have hw2 : w ∈ widgets.map (set_keypress_status ks) := hw
    simp only [List.mem_map] at hw2
    obtain ⟨v, _, rfl⟩ := hw2
    exact ⟨rfl, rfl⟩

/-- C8 witness: both widgets of a two-widget registry carry the broadcast
battery value after the battery reducer fires. -/
theorem broadcast_consistency_witness :
    (set_battery_status ⟨55, true⟩
      ⟨0, false, ⟨0⟩, 0, false, false, 0, none, "", false⟩).battery = 55 ∧
    (set_battery_status ⟨55, true⟩
      ⟨0, false, ⟨0⟩, 0, false, false, 0, none, "", false⟩).charging = true :=
  (broadcast_consistency ⟨55, true⟩ ⟨⟨0⟩, 0, false, false⟩ ⟨0, none⟩
    ⟨0x07, 0x04, 0, 0, true⟩ ⟨0, false⟩
    [⟨90, true, ⟨0⟩, 0, false, false, 0, none, "", false⟩,
     ⟨0, false, ⟨0⟩, 0, false, false, 0, none, "", false⟩] 0).1
    (set_battery_status ⟨55, true⟩
      ⟨0, false, ⟨0⟩, 0, false, false, 0, none, "", false⟩) (by decide)
